import Mathlib

/-!
Shallow embedding of `src/baseApp.py`, a tkinter application scaffold:
a `NavBar` subframe, a `SubTable` subframe wrapping a pandastable grid,
a `PageTemplate` page frame (with the example subclass `Home`), and a
`Controller` window owning one frame instance per page class and a
`show_frame` operation that raises a frame and fires its `on_enter` hook.

Widget state is modelled explicitly: a button carries an interactive
state, a text field carries its content and state, the stacking order of
the page frames is a list of instance identifiers with the head topmost,
and `print` output is an append-only trace.  Python object identity is
modelled by numeric instance ids where a claim depends on it.
-/

namespace BaseApp

/-- The tkinter interactive state of a widget: `'normal'` or `'disabled'`. -/
inductive WidgetState where
  | normal
  | disabled
deriving DecidableEq, Repr, Inhabited

/-- A tkinter `Text` widget: its content and its interactive state. -/
structure TextW where
  content : String
  state : WidgetState
deriving DecidableEq, Repr, Inhabited

/-- `Text.insert("1.0", t)`: inserting at the start of the widget.
A disabled tkinter text widget silently ignores programmatic inserts. -/
def textInsert (tw : TextW) (t : String) : TextW :=
  if tw.state = WidgetState.disabled then tw
  else { tw with content := t ++ tw.content }

/-!
## NavBar (`src/baseApp.py` lines 127-199)

The `elements` dict-of-dicts is flattened to the fixed keys this code
uses: the buttons registry (an insertion-ordered association list, as a
Python dict is), the title label text, the description `Text` widget and
the message label text.  `update_idletasks` only forces a redraw and has
no model state.
-/

structure NavBar where
  buttons : List (String × WidgetState)
  title : String
  desc : TextW
  message : String
deriving DecidableEq, Repr, Inhabited

/-- `NavBar.__init__`: one `Home` button (tkinter buttons start `'normal'`),
title label `"Default"`, an empty enabled description text, and the default
message label text. -/
def navBarInit : NavBar :=
  { buttons := [("Home", WidgetState.normal)]
  , title := "Default"
  , desc := { content := "", state := WidgetState.normal }
  , message := "Messages will be displayed here" }

/-- `NavBar.update_desc`: insert the text at position 1.0, then set the
description field's state to `'disabled'`. -/
def NavBar.update_desc (nb : NavBar) (text : String) : NavBar :=
  let d := textInsert nb.desc text
  { nb with desc := { d with state := WidgetState.disabled } }

/-- `NavBar.lock_navbar`: set every registered button's state to `'disabled'`. -/
def NavBar.lock_navbar (nb : NavBar) : NavBar :=
  { nb with buttons := nb.buttons.map (fun b => (b.1, WidgetState.disabled)) }

/-- `NavBar.unlock_navbar`: set every registered button's state to `'normal'`. -/
def NavBar.unlock_navbar (nb : NavBar) : NavBar :=
  { nb with buttons := nb.buttons.map (fun b => (b.1, WidgetState.normal)) }

/-- `NavBar.update_title`: replace the title label's text. -/
def NavBar.update_title (nb : NavBar) (title : String) : NavBar :=
  { nb with title := title }

/-- `NavBar.update_message`: replace the message label's text. -/
def NavBar.update_message (nb : NavBar) (m : String) : NavBar :=
  { nb with message := m }

/-!
## SubTable (`src/baseApp.py` lines 201-243)

A `SubTable` holds a `pandastable.TableModel` object and a
`pandastable.Table` grid widget.  Python object identity is modelled by
an `oid : Nat` on each; `edit_table` calls `setup` / `updateModel` /
`show` on the existing objects, so the model must distinguish mutating
an object in place (same `oid`) from binding a new object (fresh `oid`).
A dataframe is abstracted to its labelled tabular content.
-/

/-- Abstract tabular data (a pandas `DataFrame`): column names and rows. -/
structure DataFrame where
  columns : List String
  rows : List (List String)
deriving DecidableEq, Repr, Inhabited

/-- A `pandastable.TableModel` object: identity and the dataframe it holds. -/
structure TableModel where
  oid : Nat
  df : DataFrame
deriving DecidableEq, Repr, Inhabited

/-- `TableModel.setup(df)`: replace the held dataframe in place. -/
def TableModel.setup (m : TableModel) (df : DataFrame) : TableModel :=
  { m with df := df }

/-- A `pandastable.Table` grid widget: identity, its current model, and
the tabular content it has rendered. -/
structure TableW where
  oid : Nat
  model : TableModel
  displayed : DataFrame
deriving DecidableEq, Repr, Inhabited

/-- `Table.updateModel(model)`: point the grid at the given model. -/
def TableW.updateModel (t : TableW) (m : TableModel) : TableW :=
  { t with model := m }

/-- `Table.show()`: render the grid from its current model. -/
def TableW.show (t : TableW) : TableW :=
  { t with displayed := t.model.df }

/-- A `SubTable` subframe: its table-model object and its grid widget. -/
structure SubTable where
  tablemodel : TableModel
  table : TableW
deriving DecidableEq, Repr, Inhabited

/-- `SubTable.__init__`: a fresh `TableModel()` object and a fresh
`Table(...)` grid (which builds its own internal default model); the
three fresh objects get distinct identities `n`, `n+1`, `n+2`. -/
def subTableInit (n : Nat) : SubTable :=
  { tablemodel := { oid := n, df := default }
  , table := { oid := n + 1
             , model := { oid := n + 2, df := default }
             , displayed := default } }

/-- `SubTable.edit_table(df)`: `tablemodel.setup(df)`, then
`table.updateModel(tablemodel)`, then `table.show()` — all mutating the
objects the instance already holds. -/
def SubTable.edit_table (s : SubTable) (df : DataFrame) : SubTable :=
  let m := s.tablemodel.setup df
  let t := (s.table.updateModel m).show
  { tablemodel := m, table := t }

/-!
## PageTemplate and Home (`src/baseApp.py` lines 34-121)

A page frame's state, as far as this code mutates it: its `name`, its
`NavBar` instance, and the labels added to its `page` content subframe
(an association list name ↦ displayed text).  The scrollbars, canvas and
geometry calls configure rendering only and carry no model state.
`on_enter` prints `self.name`; `lock` / `unlock` delegate to the navbar.
-/

structure Frame where
  name : String
  navbar : NavBar
  pageLabels : List (String × String)
  tables : List (String × SubTable)
deriving DecidableEq, Repr, Inhabited

/-- `PageTemplate.__init__`: name `'template'`, a fresh `NavBar`, an empty
content subframe, and the empty `'tables'` registry of the elements dict. -/
def pageTemplateInit : Frame :=
  { name := "template", navbar := navBarInit, pageLabels := [], tables := [] }

/-- `edit_table` reached through a page: apply it to the `SubTable`
registered in the page's elements under the given key. -/
def Frame.edit_table_in (fr : Frame) (key : String) (df : DataFrame) : Frame :=
  { fr with tables := fr.tables.map (fun e => if e.1 = key then (e.1, e.2.edit_table df) else e) }

/-- `PageTemplate.lock`: delegate to the navbar. -/
def Frame.lock (fr : Frame) : Frame :=
  { fr with navbar := fr.navbar.lock_navbar }

/-- `PageTemplate.unlock`: delegate to the navbar. -/
def Frame.unlock (fr : Frame) : Frame :=
  { fr with navbar := fr.navbar.unlock_navbar }

/-- `Home.__init__`: the base constructor, then `name = 'Home'`,
`update_title('Home')`, `update_desc('Hello, world')`, and one label
`'This is the Page Frame'` added to the content subframe. -/
def homeInit : Frame :=
  let f0 := pageTemplateInit
  let f1 := { f0 with name := "Home" }
  let f2 := { f1 with navbar := f1.navbar.update_title f1.name }
  let f3 := { f2 with navbar := f2.navbar.update_desc "Hello, world" }
  { f3 with pageLabels := f3.pageLabels ++ [("pageLabel", "This is the Page Frame")] }

/-!
## Controller (`src/baseApp.py` lines 250-320)

Page classes are identified by `PageId := Nat`; the behaviour of
`F(container, self)` for class `F` is a parameter `build : PageId → Frame`
(the repository supplies `Home` and `PageTemplate` as concrete classes).
Each instantiation of a page class yields a distinct Python object,
modelled by an instance id handed out in creation order; `self.frames`
is the insertion-ordered dict mapping a page id to the object reference
(instance id) plus that object's current state.  `stacking` lists
instance ids with the head topmost: gridding a new frame into the shared
cell puts it on top, and `tkraise` moves a frame to the head.  `output`
is the stdout trace, which `on_enter` appends `self.name` to.
-/

abbrev PageId := Nat

/-- Dict lookup in an insertion-ordered association list. -/
def alistLookup (l : List (PageId × Nat × Frame)) (k : PageId) : Option (Nat × Frame) :=
  match l with
  | [] => none
  | e :: rest => if e.1 = k then some e.2 else alistLookup rest k

/-- Dict assignment `d[k] = v`: update in place if present, else append. -/
def alistUpsert (l : List (PageId × Nat × Frame)) (k : PageId) (v : Nat × Frame) :
    List (PageId × Nat × Frame) :=
  match l with
  | [] => [(k, v)]
  | e :: rest => if e.1 = k then (k, v) :: rest else e :: alistUpsert rest k v

/-- `Controller.settings`: the version string and the three font specs. -/
structure Settings where
  version : String
  smallfont : String × Nat
  medfont : String × Nat
  largefont : String × Nat
deriving DecidableEq, Repr, Inhabited

/-- `Controller.data`: the three mappings keyed `'df'`, `'inputs'`, `'conn'`
(value contents are caller-managed and abstracted to strings). -/
structure AppData where
  df : List (String × String)
  inputs : List (String × String)
  conn : List (String × String)
deriving DecidableEq, Repr, Inhabited

/-- `Controller.queue`: a `queue.Queue` with its `maxsize` bound and items. -/
structure BQueue where
  maxsize : Nat
  items : List String
deriving DecidableEq, Repr, Inhabited

structure ControllerState where
  settings : Settings
  frames : List (PageId × Nat × Frame)
  pages : List PageId
  createdInstances : List (Nat × PageId)
  stacking : List Nat
  data : AppData
  queue : BQueue
  output : List String
deriving DecidableEq, Repr, Inhabited

/-- Errors a `Controller` operation can raise. -/
inductive PyErr where
  | keyError
  | indexError
deriving DecidableEq, Repr, Inhabited

/-- `Controller.show_frame(cont)`: look the class up in `self.frames`
(raising `KeyError` before anything else happens when it is absent),
`tkraise` the frame above its siblings, then run its `on_enter` hook,
which prints the frame's name. -/
def showFrameRun (s : ControllerState) (cont : PageId) :
    Option PyErr × ControllerState :=
  match alistLookup s.frames cont with
  | none => (some PyErr.keyError, s)
  | some (idx, fr) =>
    let s1 := { s with stacking := idx :: s.stacking.filter (fun j => j ≠ idx) }
    (none, { s1 with output := s1.output ++ [fr.name] })

/-- The accumulator of the `for F in self.pages` construction loop. -/
structure BuildAcc where
  nextIdx : Nat
  created : List (Nat × PageId)
  frames : List (PageId × Nat × Frame)
  stacking : List Nat
deriving Repr, Inhabited

/-- The construction loop: for each page class in order, instantiate it
(a fresh object), store it under its class in `self.frames`, and grid it
into the shared cell, which stacks it above the frames gridded before. -/
def buildPages (build : PageId → Frame) : List PageId → BuildAcc → BuildAcc
  | [], acc => acc
  | p :: rest, acc =>
    buildPages build rest
      { nextIdx := acc.nextIdx + 1
      , created := acc.created ++ [(acc.nextIdx, p)]
      , frames := alistUpsert acc.frames p (acc.nextIdx, build p)
      , stacking := acc.nextIdx :: acc.stacking }

/-- `Controller.__init__(pages, version)`: set `settings`, instantiate
every page class in list order into `self.frames`, call
`self.show_frame(self.pages[0])` (an `IndexError` when `pages` is empty,
raised after the zero-iteration loop and before `data` and `queue` are
assigned), then set `data` to three empty mappings and `queue` to a
bounded queue of capacity 10. -/
def mkController (build : PageId → Frame) (pages : List PageId) (version : String) :
    Except PyErr ControllerState :=
  let settings : Settings :=
    { version := version
    , smallfont := ("Verdana", 12)
    , medfont := ("Verdana", 20)
    , largefont := ("Verdana", 30) }
  let acc := buildPages build pages { nextIdx := 0, created := [], frames := [], stacking := [] }
  match pages with
  | [] => Except.error PyErr.indexError
  | p0 :: _ =>
    let s0 : ControllerState :=
      { settings := settings
      , frames := acc.frames
      , pages := pages
      , createdInstances := acc.created
      , stacking := acc.stacking
      , data := default
      , queue := default
      , output := [] }
    match showFrameRun s0 p0 with
    | (some e, _) => Except.error e
    | (none, s1) =>
      Except.ok { s1 with
        data := { df := [], inputs := [], conn := [] }
      , queue := { maxsize := 10, items := [] } }

/-- Apply a frame-level operation (a `PageTemplate` / `NavBar` / `SubTable`
mutator reached through the page object) to the frame registered for a
page class: only that object's state changes. -/
def updateFrameAt (s : ControllerState) (p : PageId) (f : Frame → Frame) :
    ControllerState :=
  { s with frames := s.frames.map (fun e => if e.1 = p then (e.1, e.2.1, f e.2.2) else e) }

/-- The page-id ↦ instance-id view of `self.frames`: which object each
page class is mapped to, ignoring the object's mutable state. -/
def framesView (s : ControllerState) : List (PageId × Nat) :=
  s.frames.map (fun e => (e.1, e.2.1))

/-- A concrete page-class environment: every class builds like `Home`. -/
def build0 : PageId → Frame := fun _ => homeInit

/-- The concrete controller obtained from `Controller([Home], '0.0')`. -/
def cs0 : ControllerState :=
  match mkController build0 [0] "0.0" with
  | Except.ok s => s
  | Except.error _ => default

/-- The empty accumulator the construction loop starts from. -/
def initAcc : BuildAcc := { nextIdx := 0, created := [], frames := [], stacking := [] }

/-- Instance ids paired with page ids, counting up from `i`: the closed
form of the creation trace the construction loop leaves behind. -/
def enumFrom (i : Nat) : List PageId → List (Nat × PageId)
  | [] => []
  | p :: rest => (i, p) :: enumFrom (i + 1) rest

/-- The concrete controller obtained from `Controller([Home, Home], '0.0')`:
the same page class supplied twice. -/
def cs2dup : ControllerState :=
  match mkController build0 [0, 0] "0.0" with
  | Except.ok s => s
  | Except.error _ => default

/-!
## Helper lemmas

Association-list dict laws and a characterization of the construction
loop and of `Controller.__init__` on a non-empty pages list whose head
is not repeated later.
-/

theorem alistLookup_upsert_self (l : List (PageId × Nat × Frame)) (k : PageId) (v : Nat × Frame) :
    alistLookup (alistUpsert l k v) k = some v := by
  induction l with
  | nil => simp [alistUpsert, alistLookup]
  | cons e t ih =>
    by_cases h : e.1 = k <;> simp [alistUpsert, alistLookup, h, ih]

theorem alistLookup_upsert_ne (l : List (PageId × Nat × Frame)) (k q : PageId) (v : Nat × Frame)
    (h : k ≠ q) : alistLookup (alistUpsert l k v) q = alistLookup l q := by
  induction l with
  | nil => simp [alistUpsert, alistLookup, h]
  | cons e t ih =>
    by_cases he : e.1 = k
    · simp [alistUpsert, alistLookup, he, h]
    · simp [alistUpsert, alistLookup, he, ih]

theorem buildPages_lookup_preserved (build : PageId → Frame) (ps : List PageId) (acc : BuildAcc)
    (q : PageId) (v : Nat × Frame) (hq : q ∉ ps) (h : alistLookup acc.frames q = some v) :
    alistLookup (buildPages build ps acc).frames q = some v := by
  induction ps generalizing acc with
  | nil => exact h
  | cons p rest ih =>
    have hne : p ≠ q := fun e => hq (e ▸ List.mem_cons_self p rest)
    refine ih _ (fun hm => hq (List.mem_cons_of_mem p hm)) ?_
    simpa [buildPages, alistLookup_upsert_ne _ _ _ _ hne] using h

theorem buildPages_created (build : PageId → Frame) (ps : List PageId) (acc : BuildAcc) :
    (buildPages build ps acc).created = acc.created ++ enumFrom acc.nextIdx ps := by
  induction ps generalizing acc with
  | nil => simp [buildPages, enumFrom]
  | cons p rest ih => simp [buildPages, enumFrom, ih]

theorem enumFrom_map_snd (i : Nat) (ps : List PageId) :
    (enumFrom i ps).map Prod.snd = ps := by
  induction ps generalizing i with
  | nil => rfl
  | cons p rest ih => simp [enumFrom, ih]

theorem mkController_cons (build : PageId → Frame) (v : String) (p0 : PageId)
    (rest : List PageId) (h0 : p0 ∉ rest) :
    mkController build (p0 :: rest) v = Except.ok
      { settings := { version := v, smallfont := ("Verdana", 12), medfont := ("Verdana", 20),
                      largefont := ("Verdana", 30) }
      , frames := (buildPages build (p0 :: rest) initAcc).frames
      , pages := p0 :: rest
      , createdInstances := (buildPages build (p0 :: rest) initAcc).created
      , stacking := 0 :: (buildPages build (p0 :: rest) initAcc).stacking.filter (fun j => j ≠ 0)
      , data := { df := [], inputs := [], conn := [] }
      , queue := { maxsize := 10, items := [] }
      , output := [(build p0).name] } := by
  have hlk : alistLookup (buildPages build (p0 :: rest) initAcc).frames p0 =
      some (0, build p0) := by
    refine buildPages_lookup_preserved build rest _ p0 _ h0 ?_
    simp [buildPages, initAcc, alistLookup_upsert_self]
  simp only [initAcc] at hlk
  simp only [mkController, showFrameRun, hlk]
  simp [initAcc]

theorem map_buttons_normal_id (l : List (String × WidgetState))
    (h : ∀ b ∈ l, b.2 = WidgetState.normal) :
    l.map (fun b => (b.1, WidgetState.normal)) = l := by
  induction l with
  | nil => rfl
  | cons a t ih =>
    have ha : a.2 = WidgetState.normal := h a (List.mem_cons_self a t)
    have ht := ih (fun b hb => h b (List.mem_cons_of_mem a hb))
    have haa : (a.1, WidgetState.normal) = a := by rw [← ha]
    simp [ht, haa]

theorem frames_view_map_update (l : List (PageId × Nat × Frame)) (p : PageId) (f : Frame → Frame) :
    (l.map (fun e => if e.1 = p then (e.1, e.2.1, f e.2.2) else e)).map (fun e => (e.1, e.2.1)) =
      l.map (fun e => (e.1, e.2.1)) := by
  induction l with
  | nil => rfl
  | cons a t ih => by_cases hp : a.1 = p <;> simp [hp, ih]

/-!
## Claim theorems
-/

/-- C1: for every page type registered in `Controller.frames`, calling
`show_frame` with that type raises no error, appends exactly one
`on_enter` record (the page's name printed by the hook) to the output
trace, and puts that page's frame instance at the top of the stacking
order, above its siblings. -/
theorem show_frame_registered_enters_once_and_raises
    (s : ControllerState) (p : PageId) (idx : Nat) (fr : Frame)
    (h : alistLookup s.frames p = some (idx, fr)) :
    showFrameRun s p =
      (none,
        { s with
            stacking := idx :: s.stacking.filter (fun j => j ≠ idx)
            output := s.output ++ [fr.name] }) ∧
    (showFrameRun s p).2.stacking.head? = some idx := by
  refine ⟨?_, ?_⟩ <;> simp [showFrameRun, h]

/-- Witness for C1: in the controller built from `Controller([Home], '0.0')`,
showing the registered page raises its frame and fires `on_enter` once. -/
theorem show_frame_registered_witness :
    alistLookup cs0.frames 0 = some (0, homeInit) ∧
    (showFrameRun cs0 0 =
      (none,
        { cs0 with
            stacking := 0 :: cs0.stacking.filter (fun j => j ≠ 0)
            output := cs0.output ++ [homeInit.name] }) ∧
     (showFrameRun cs0 0).2.stacking.head? = some 0) :=
  ⟨rfl, show_frame_registered_enters_once_and_raises cs0 0 0 homeInit rfl⟩

/-- C9: calling `show_frame` with a page type absent from `frames` raises
`KeyError` on the dict lookup, before the raise and before `on_enter`,
leaving the whole controller state (stacking order included) unchanged. -/
theorem show_frame_unregistered_atomic_keyerror
    (s : ControllerState) (p : PageId) (h : alistLookup s.frames p = none) :
    showFrameRun s p = (some PyErr.keyError, s) := by
  unfold showFrameRun
  rw [h]

/-- Witness for C9: the controller built from `Controller([Home], '0.0')`
has no page type 1; `show_frame(1)` is a `KeyError` that changes nothing. -/
theorem show_frame_unregistered_witness :
    alistLookup cs0.frames 1 = none ∧ showFrameRun cs0 1 = (some PyErr.keyError, cs0) :=
  ⟨rfl, show_frame_unregistered_atomic_keyerror cs0 1 rfl⟩

/-- C10: constructing a `Controller` with an empty pages list fails: the
loop instantiates zero frames and `self.pages[0]` raises `IndexError`. -/
theorem controller_empty_pages_raises_index_error (build : PageId → Frame) (v : String) :
    mkController build [] v = Except.error PyErr.indexError := rfl

/-- C3: two successive `edit_table` calls leave the `SubTable` exactly as
a single `edit_table` with the second data would: every call is a full
replace, never a merge of the two inputs. -/
theorem edit_table_twice_eq_second (s : SubTable) (d1 d2 : DataFrame) :
    (s.edit_table d1).edit_table d2 = s.edit_table d2 := rfl

/-- C5 (amended): `edit_table` replaces the table-model's backing
dataframe and the grid's displayed contents wholesale, but mutates the
same table-model object and the same grid-widget object in place — their
identities are unchanged by the call. -/
theorem edit_table_preserves_object_identity (s : SubTable) (d : DataFrame) :
    (s.edit_table d).tablemodel.oid = s.tablemodel.oid ∧
    (s.edit_table d).table.oid = s.table.oid ∧
    (s.edit_table d).tablemodel.df = d ∧
    (s.edit_table d).table.displayed = d := ⟨rfl, rfl, rfl, rfl⟩

/-- Counterexample to C5 as stated: after `edit_table` on a freshly
constructed `SubTable`, the instance still holds the model object with
identity 0 and the grid object with identity 1 it held before the call —
they are not new objects. -/
theorem edit_table_new_objects_counterexample :
    ((subTableInit 0).edit_table { columns := ["a"], rows := [["1"]] }).tablemodel.oid = 0 ∧
    (subTableInit 0).tablemodel.oid = 0 ∧
    ((subTableInit 0).edit_table { columns := ["a"], rows := [["1"]] }).table.oid = 1 ∧
    (subTableInit 0).table.oid = 1 := ⟨rfl, rfl, rfl, rfl⟩

/-- C4 (amended): `lock_navbar` followed by `unlock_navbar` sets every
registered button to `'normal'`; when every button was `'normal'` before
the lock — as in any freshly constructed `NavBar` — this restores the
`NavBar` exactly. -/
theorem lock_unlock_restores_when_all_enabled (nb : NavBar)
    (h : ∀ b ∈ nb.buttons, b.2 = WidgetState.normal) :
    nb.lock_navbar.unlock_navbar = nb := by
  unfold NavBar.lock_navbar NavBar.unlock_navbar
  simp only [List.map_map]
  have hb : nb.buttons.map
      ((fun b : String × WidgetState => (b.1, WidgetState.normal)) ∘
        (fun b : String × WidgetState => (b.1, WidgetState.disabled))) = nb.buttons :=
    map_buttons_normal_id nb.buttons h
  rw [hb]

/-- Witness for C4 (amended): the freshly constructed `NavBar` has every
button enabled, and lock followed by unlock restores it exactly. -/
theorem lock_unlock_witness :
    (∀ b ∈ navBarInit.buttons, b.2 = WidgetState.normal) ∧
    navBarInit.lock_navbar.unlock_navbar = navBarInit :=
  ⟨by decide, lock_unlock_restores_when_all_enabled navBarInit (by decide)⟩

/-- Counterexample to C4 as stated: starting from a `NavBar` whose `Home`
button is already `'disabled'` (reachable by a prior `lock_navbar`), lock
followed by unlock leaves the button `'normal'`, not the `'disabled'`
state it had before the lock. -/
theorem lock_unlock_counterexample :
    navBarInit.lock_navbar.lock_navbar.unlock_navbar ≠ navBarInit.lock_navbar ∧
    (navBarInit.lock_navbar.lock_navbar.unlock_navbar).buttons = [("Home", WidgetState.normal)] ∧
    (navBarInit.lock_navbar).buttons = [("Home", WidgetState.disabled)] := by
  refine ⟨by decide, rfl, rfl⟩

/-- C6: on a freshly constructed `NavBar`, `update_desc(text)` leaves the
description field displaying exactly `text` with state `'disabled'`, and
a further insert into the now-disabled field is ignored. -/
theorem update_desc_fresh_sets_text_and_disables (t t2 : String) :
    (navBarInit.update_desc t).desc.content = t ∧
    (navBarInit.update_desc t).desc.state = WidgetState.disabled ∧
    textInsert (navBarInit.update_desc t).desc t2 = (navBarInit.update_desc t).desc := by
  refine ⟨?_, rfl, rfl⟩
  simp [navBarInit, NavBar.update_desc, textInsert]

/-- C7: `show_frame` leaves `self.frames` untouched (it only reads it);
every frame-level mutation reached through a page (lock, unlock, the
`NavBar` mutators, `edit_table`) preserves the page-type ↦ frame-instance
mapping; and after construction `self.frames` is exactly what the
construction loop populated. -/
theorem frames_mapping_never_mutated :
    (∀ (s : ControllerState) (p : PageId), (showFrameRun s p).2.frames = s.frames) ∧
    (∀ (s : ControllerState) (p : PageId) (f : Frame → Frame),
        framesView (updateFrameAt s p f) = framesView s) ∧
    (∀ (build : PageId → Frame) (v : String) (p0 : PageId) (rest : List PageId)
        (s : ControllerState), p0 ∉ rest → mkController build (p0 :: rest) v = Except.ok s →
        s.frames = (buildPages build (p0 :: rest) initAcc).frames) := by
  refine ⟨?_, ?_, ?_⟩
  · intro s p
    rcases hl : alistLookup s.frames p with _ | ⟨idx, fr⟩ <;> simp [showFrameRun, hl]
  · intro s p f
    simp only [framesView, updateFrameAt]
    exact frames_view_map_update s.frames p f
  · intro build v p0 rest s h0 h
    rw [mkController_cons build v p0 rest h0] at h
    rw [← Except.ok.inj h]

/-- Witness for C7: `Controller([Home], '0.0')` ends with `frames` equal
to what the construction loop populated. -/
theorem frames_mapping_witness :
    (0 : PageId) ∉ ([] : List PageId) ∧
    mkController build0 [0] "0.0" = Except.ok cs0 ∧
    cs0.frames = (buildPages build0 [0] initAcc).frames :=
  ⟨by simp, rfl, frames_mapping_never_mutated.2.2 build0 "0.0" 0 [] cs0 (by simp) rfl⟩

/-- C8: after any successful construction, `data` holds the three empty
mappings `df`, `inputs`, `conn` and `queue` is an empty bounded queue of
capacity 10; and neither `show_frame` (with its `on_enter` hook) nor any
frame-level operation reached through a page (lock, unlock, the `NavBar`
mutators, `edit_table`) reads or writes them, so both stay unchanged. -/
theorem data_and_queue_inert :
    (∀ (build : PageId → Frame) (pages : List PageId) (v : String) (s : ControllerState),
        mkController build pages v = Except.ok s →
        s.data = { df := [], inputs := [], conn := [] } ∧
        s.queue = { maxsize := 10, items := [] }) ∧
    (∀ (s : ControllerState) (p : PageId),
        (showFrameRun s p).2.data = s.data ∧ (showFrameRun s p).2.queue = s.queue) ∧
    (∀ (s : ControllerState) (p : PageId) (f : Frame → Frame),
        (updateFrameAt s p f).data = s.data ∧ (updateFrameAt s p f).queue = s.queue) := by
  refine ⟨?_, ?_, ?_⟩
  · intro build pages v s h
    cases pages with
    | nil => simp [mkController] at h
    | cons p0 rest =>
      rcases hl : alistLookup (buildPages build (p0 :: rest)
          { nextIdx := 0, created := [], frames := [], stacking := [] }).frames p0 with _ | ⟨idx, fr⟩
      · simp only [mkController, showFrameRun, hl] at h
        exact Except.noConfusion h
      · simp only [mkController, showFrameRun, hl] at h
        rw [← Except.ok.inj h]
        exact ⟨rfl, rfl⟩
  · intro s p
    rcases hl : alistLookup s.frames p with _ | ⟨idx, fr⟩ <;> simp [showFrameRun, hl]
  · intro s p f
    exact ⟨rfl, rfl⟩

/-- Witness for C8: `Controller([Home], '0.0')` ends with the three empty
mappings and the empty capacity-10 queue. -/
theorem data_and_queue_inert_witness :
    mkController build0 [0] "0.0" = Except.ok cs0 ∧
    cs0.data = { df := [], inputs := [], conn := [] } ∧
    cs0.queue = { maxsize := 10, items := [] } :=
  ⟨rfl, (data_and_queue_inert.1 build0 [0] "0.0" cs0 rfl).1,
    (data_and_queue_inert.1 build0 [0] "0.0" cs0 rfl).2⟩

/-- C2 (amended): for every non-empty list of pairwise-distinct page
types, construction succeeds; the creation trace is exactly the supplied
list in order, so each supplied type is instantiated exactly once; the
first type maps to the first created instance (instance 0) holding its
built frame; that instance is at the top of the stacking order; and the
output trace shows the first page's `on_enter` already ran (the page was
shown immediately). -/
theorem controller_init_nodup_instances_and_top
    (build : PageId → Frame) (v : String) (p0 : PageId) (rest : List PageId)
    (s : ControllerState) (hnd : (p0 :: rest).Nodup)
    (h : mkController build (p0 :: rest) v = Except.ok s) :
    s.createdInstances.map Prod.snd = p0 :: rest ∧
    (∀ p ∈ p0 :: rest, (s.createdInstances.map Prod.snd).count p = 1) ∧
    alistLookup s.frames p0 = some (0, build p0) ∧
    s.createdInstances.head? = some (0, p0) ∧
    s.stacking.head? = some 0 ∧
    s.output = [(build p0).name] := by
  have h0 : p0 ∉ rest := (List.nodup_cons.mp hnd).1
  rw [mkController_cons build v p0 rest h0] at h
  rw [← Except.ok.inj h]
  have hcr : (buildPages build (p0 :: rest) initAcc).created = enumFrom 0 (p0 :: rest) := by
    rw [buildPages_created]
    simp [initAcc]
  have hmap : (buildPages build (p0 :: rest) initAcc).created.map Prod.snd = p0 :: rest := by
    rw [hcr, enumFrom_map_snd]
  refine ⟨hmap, ?_, ?_, ?_, rfl, rfl⟩
  · intro p hp
    rw [hmap]
    exact List.count_eq_one_of_mem hnd hp
  · refine buildPages_lookup_preserved build rest _ p0 _ h0 ?_
    simp [buildPages, initAcc, alistLookup_upsert_self]
  · rw [hcr]
    rfl

/-- Witness for C2 (amended): `Controller([Home], '0.0')` instantiates
its single page once and shows it on top. -/
theorem controller_init_nodup_witness :
    ([0] : List PageId).Nodup ∧
    mkController build0 [0] "0.0" = Except.ok cs0 ∧
    (cs0.createdInstances.map Prod.snd = [0] ∧
     (∀ p ∈ ([0] : List PageId), (cs0.createdInstances.map Prod.snd).count p = 1) ∧
     alistLookup cs0.frames 0 = some (0, build0 0) ∧
     cs0.createdInstances.head? = some (0, 0) ∧
     cs0.stacking.head? = some 0 ∧
     cs0.output = [(build0 0).name]) :=
  ⟨by simp, rfl, controller_init_nodup_instances_and_top build0 "0.0" 0 [] cs0 (by simp) rfl⟩

/-- Counterexample to C2 as stated: supplying the same page class twice,
`Controller([Home, Home], '0.0')` constructs without error but
instantiates that class twice — its creation count is 2, not 1. -/
theorem controller_init_duplicate_page_counterexample :
    mkController build0 [0, 0] "0.0" = Except.ok cs2dup ∧
    (cs2dup.createdInstances.map Prod.snd).count 0 = 2 ∧
    (cs2dup.createdInstances.map Prod.snd).count 0 ≠ 1 :=
  ⟨rfl, rfl, by decide⟩

end BaseApp
